import Mathlib

/-!
Verification of the Power BI MCP server core (src/server.py) against its
natural-language specification.  The Python code is shallowly embedded:
pure helpers become Lean functions, the connector's mutable state becomes an
explicit `ConnState` record threaded through the operations, the external
ADOMD driver becomes a `Driver` record of oracle functions, and each
operation additionally returns the list of driver calls it performed so
that claims about "zero calls into the client" are statable.
-/

/-! ## Query sanitizer (`clean_dax_query`, server.py lines 62-68)

Python: `cleaned = re.sub(r"<[^>]+>", "", dax_query)` followed by
`" ".join(cleaned.split())`.  The regex scans left to right; at a `<` it
matches greedily all characters up to (excluding) the next `>` — at least
one such character — then the `>`, and removes the whole span.  A `<` with
no later `>`, or immediately followed by `>`, does not match and is kept.
-/

/-- Split a character list at the first occurrence of the character
greater-than: returns the characters before it and the characters after it,
or none when it does not occur.  Models the extent of the regex match
`<[^>]+>` starting at a given `<`. -/
def splitFirstGt : List Char → Option (List Char × List Char)
  | [] => none
  | c :: cs =>
    if c = '>' then some ([], cs)
    else
      match splitFirstGt cs with
      | some (pre, post) => some (c :: pre, post)
      | none => none

/-- Fuelled left-to-right scan implementing `re.sub(r"<[^>]+>", "", s)`:
at a `<`, if a later `>` exists with at least one character in between, the
whole span including both brackets is dropped and scanning resumes after the
`>`; otherwise the character is kept.  Fuel at least the length of the list
makes the scan total. -/
def removeTagsAux : Nat → List Char → List Char
  | 0, s => s
  | _ + 1, [] => []
  | n + 1, c :: cs =>
    if c = '<' then
      match splitFirstGt cs with
      | some (pre, post) =>
        if pre.isEmpty then c :: removeTagsAux n cs else removeTagsAux n post
      | none => c :: removeTagsAux n cs
    else c :: removeTagsAux n cs

/-- The tag-removal pass of `clean_dax_query`. -/
def removeTags (s : List Char) : List Char :=
  removeTagsAux s.length s

/-- Python `str.isspace` on the whitespace characters relevant to
`str.split()` with no arguments. -/
def isPySpace (c : Char) : Bool :=
  c = ' ' || c = '\t' || c = '\n' || c = '\r' || c = '\x0b' || c = '\x0c'

/-- Python `s.split()`: maximal runs of non-whitespace characters, in order,
leading and trailing whitespace dropped.  `acc` is the current word reversed. -/
def pySplitAux : List Char → List Char → List (List Char)
  | [], acc => if acc.isEmpty then [] else [acc.reverse]
  | c :: cs, acc =>
    if isPySpace c then
      if acc.isEmpty then pySplitAux cs [] else acc.reverse :: pySplitAux cs []
    else pySplitAux cs (c :: acc)

/-- Python `s.split()` with no arguments. -/
def pySplit (s : List Char) : List (List Char) := pySplitAux s []

/-- Python `" ".join(s.split())`: collapse consecutive whitespace to single
spaces and strip the ends. -/
def collapseWs (s : List Char) : List Char :=
  List.intercalate [' '] (pySplit s)

/-- The sanitizer `clean_dax_query` over character lists: remove the
markup-tag spans, then collapse whitespace. -/
def cleanDaxList (s : List Char) : List Char :=
  collapseWs (removeTags s)

/-- The sanitizer `clean_dax_query` (server.py lines 62-68) on strings. -/
def clean_dax_query (s : String) : String :=
  String.mk (cleanDaxList s.data)

/-! Sanity lemmas about the tag-removal pass. -/

theorem splitFirstGt_eq_none {s : List Char} (h : '>' ∉ s) :
    splitFirstGt s = none := by
  induction s with
  | nil => rfl
  | cons c cs ih =>
    simp only [List.mem_cons, not_or] at h
    have hc : ¬ (c = '>') := fun hc => h.1 hc.symm
    simp only [splitFirstGt, if_neg hc, ih h.2]

theorem removeTagsAux_no_lt : ∀ (n : Nat) (s : List Char), '<' ∉ s →
    removeTagsAux n s = s := by
  intro n
  induction n with
  | zero => intro s _; rfl
  | succ n ih =>
    intro s h
    cases s with
    | nil => rfl
    | cons c cs =>
      simp only [List.mem_cons, not_or] at h
      have hc : ¬ (c = '<') := fun hc => h.1 hc.symm
      simp only [removeTagsAux, if_neg hc]
      rw [ih cs h.2]

theorem removeTagsAux_no_gt : ∀ (n : Nat) (s : List Char), '>' ∉ s →
    removeTagsAux n s = s := by
  intro n
  induction n with
  | zero => intro s _; rfl
  | succ n ih =>
    intro s h
    cases s with
    | nil => rfl
    | cons c cs =>
      simp only [List.mem_cons, not_or] at h
      by_cases hc : c = '<'
      · simp only [removeTagsAux, if_pos hc, splitFirstGt_eq_none h.2]
        rw [ih cs h.2]
      · simp only [removeTagsAux, if_neg hc]
        rw [ih cs h.2]

/-- Tag removal keeps any string free of the less-than character unchanged. -/
theorem removeTags_no_lt {s : List Char} (h : '<' ∉ s) : removeTags s = s :=
  removeTagsAux_no_lt s.length s h

/-- Tag removal keeps any string free of the greater-than character
unchanged. -/
theorem removeTags_no_gt {s : List Char} (h : '>' ∉ s) : removeTags s = s :=
  removeTagsAux_no_gt s.length s h

/-! ## Data model

`ConnState` is the mutable state of a `PowerBIConnector` instance
(server.py lines 194-200): the stored connection string, the `connected`
flag and the cached table list.  `Driver` packages the external ADOMD
driver (Pyadomd) as oracle functions, each returning `Except` to model the
Python calls that may raise.  `DriverCall` records each call an operation
makes into the driver, so that the absence of driver traffic is statable. -/

/-- Values appearing in result rows, kept abstract: the claims treat row
contents as opaque payload. -/
inductive PBValue where
  | str (s : String)
  | int (n : Int)
  | null
  deriving DecidableEq, Repr

/-- One row of the schema catalog returned by
`GetSchemaDataSet(AdomdSchemaGuid.Tables, None)`: the fields the code reads
(server.py lines 252-256). -/
structure SchemaRow where
  TABLE_NAME : String
  TABLE_SCHEMA : String
  deriving DecidableEq, Repr

/-- The table descriptors `get_table_schema` and `get_measures_for_table`
return, one constructor per dict shape in the code: `data_table` with a
column list (line 285), `measure_table` with (name, dax) measures
(lines 322-326), `unknown` with an empty measure list (line 311), and
`error` with the message (line 330). -/
inductive TableSchema where
  | data_table (table_name : String) (columns : List String)
  | measure_table (table_name : String) (measures : List (String × String))
  | unknown (table_name : String)
  | error (table_name : String) (msg : String)
  deriving DecidableEq, Repr

/-- The value of the dict key "type" of a descriptor. -/
def TableSchema.kind : TableSchema → String
  | .data_table _ _ => "data_table"
  | .measure_table _ _ => "measure_table"
  | .unknown _ => "unknown"
  | .error _ _ => "error"

/-- Mutable state of a `PowerBIConnector` (server.py lines 194-198). -/
structure ConnState where
  connection_string : Option String := none
  connected : Bool := false
  tables : List String := []
  deriving DecidableEq, Repr

/-- One call into the blocking ADOMD driver: opening a `Pyadomd` handle with
a connection string, the schema-catalog call, a cursor query with its text,
the measure-table id lookup, or the measure listing for a table id. -/
inductive DriverCall where
  | openConn (cs : String)
  | getSchemaDataSet
  | query (q : String)
  | tableIdQuery (t : String)
  | measuresQuery (id : Int)
  deriving DecidableEq, Repr

/-- The external blocking driver as an oracle: each field models one
primitive the connector invokes, returning `Except` where the Python call
may raise.  `query` returns the cursor description (column headers) and the
fetched rows. -/
structure Driver where
  openConn : String → Except String Unit
  schemaTables : Except String (List (List SchemaRow))
  query : String → Except String (List String × List (List PBValue))
  tableId : String → Except String (Option Int)
  measures : Int → Except String (List (String × String))

/-- Error message of every operation invoked while not connected
(server.py lines 234, 270, 298, 335). -/
def notConnectedMsg : String := "Not connected to Power BI"

/-- Error message of `_check_pyadomd` when the driver library is missing
(server.py line 204). -/
def pyadomdMsg : String :=
  "Pyadomd library not available. Ensure .NET runtime and ADOMD.NET are installed"

/-! ## Connector operations

Each operation takes the availability flag of the Pyadomd library (the
module-level `Pyadomd is None` test of `_check_pyadomd`), the connector
state and the driver, and returns its Python result as `Except` (errors are
raised exceptions), the successor state where the Python method mutates
`self`, and the trace of driver calls it performed. -/

/-- The provider connection string `connect` builds
(server.py lines 211-217). -/
def buildConnStr (xmla_endpoint tenant_id client_id client_secret initial_catalog : String) :
    String :=
  "Provider=MSOLAP;" ++
  "Data Source=" ++ xmla_endpoint ++ ";" ++
  "Initial Catalog=" ++ initial_catalog ++ ";" ++
  "User ID=app:" ++ client_id ++ "@" ++ tenant_id ++ ";" ++
  "Password=" ++ client_secret ++ ";"

/-- `PowerBIConnector.connect` (server.py lines 206-229): check the driver
library, store the freshly built connection string, probe one connection;
on success set `connected` and return `True`, on failure clear `connected`
and raise with the driver message appended to a fixed text. -/
def PowerBIConnector.connect (pyadomd : Bool) (st : ConnState) (drv : Driver)
    (xmla_endpoint tenant_id client_id client_secret initial_catalog : String) :
    Except String Bool × ConnState × List DriverCall :=
  if !pyadomd then (.error pyadomdMsg, st, [])
  else
    let cs := buildConnStr xmla_endpoint tenant_id client_id client_secret initial_catalog
    let st1 : ConnState := { st with connection_string := some cs }
    match drv.openConn cs with
    | .ok _ => (.ok true, { st1 with connected := true }, [.openConn cs])
    | .error e =>
      (.error ("Connection failed: " ++ e), { st1 with connected := false }, [.openConn cs])

/-- Python `str.startswith` over character lists: the second argument is
the pattern. -/
def listStartsWith : List Char → List Char → Bool
  | _, [] => true
  | [], _ :: _ => false
  | c :: cs, p :: ps => c == p && listStartsWith cs ps

/-- Python `str.startswith` on strings (exact, case-sensitive match). -/
def strStartsWith (s pat : String) : Bool :=
  listStartsWith s.data pat.data

/-- The filter applied to each schema row (server.py lines 253-257): keep a
table unless its name starts with a reserved marker or its schema namespace
is the system namespace. -/
def keepTable (r : SchemaRow) : Bool :=
  !(strStartsWith r.TABLE_NAME "$") &&
  !(strStartsWith r.TABLE_NAME "DateTableTemplate_") &&
  !(r.TABLE_SCHEMA == "$SYSTEM")

/-- `PowerBIConnector.discover_tables` (server.py lines 231-265): require
`connected` and the driver library, return the cached list when non-empty,
otherwise query the schema catalog, filter, cache and return. -/
def PowerBIConnector.discover_tables (pyadomd : Bool) (st : ConnState) (drv : Driver) :
    Except String (List String) × ConnState × List DriverCall :=
  if !st.connected then (.error notConnectedMsg, st, [])
  else if !pyadomd then (.error pyadomdMsg, st, [])
  else if !st.tables.isEmpty then (.ok st.tables, st, [])
  else
    let cs := st.connection_string.getD ""
    match drv.openConn cs with
    | .error e => (.error ("Failed to discover tables: " ++ e), st, [.openConn cs])
    | .ok _ =>
      match drv.schemaTables with
      | .error e =>
        (.error ("Failed to discover tables: " ++ e), st, [.openConn cs, .getSchemaDataSet])
      | .ok tablesets =>
        let rows := match tablesets with | [] => [] | t :: _ => t
        let tables_list := (rows.filter keepTable).map SchemaRow.TABLE_NAME
        (.ok tables_list, { st with tables := tables_list },
          [.openConn cs, .getSchemaDataSet])

/-- `PowerBIConnector.get_measures_for_table` (server.py lines 295-330):
resolve the table id from the system tables, then list its measures; the
whole body is wrapped in a try whose handler returns an `error`-kind
descriptor carrying the exception text, so after the preamble checks the
function never raises. -/
def PowerBIConnector.get_measures_for_table (pyadomd : Bool) (st : ConnState)
    (drv : Driver) (table_name : String) :
    Except String TableSchema × List DriverCall :=
  if !st.connected then (.error notConnectedMsg, [])
  else if !pyadomd then (.error pyadomdMsg, [])
  else
    let cs := st.connection_string.getD ""
    match drv.openConn cs with
    | .error e => (.ok (.error table_name e), [.openConn cs])
    | .ok _ =>
      match drv.tableId table_name with
      | .error e => (.ok (.error table_name e), [.openConn cs, .tableIdQuery table_name])
      | .ok none => (.ok (.unknown table_name), [.openConn cs, .tableIdQuery table_name])
      | .ok (some id) =>
        match drv.measures id with
        | .error e =>
          (.ok (.error table_name e),
            [.openConn cs, .tableIdQuery table_name, .measuresQuery id])
        | .ok ms =>
          (.ok (.measure_table table_name ms),
            [.openConn cs, .tableIdQuery table_name, .measuresQuery id])

/-- The column-probe query of `get_table_schema` (server.py line 280). -/
def probeQuery (table_name : String) : String :=
  "EVALUATE TOPN(1, '" ++ table_name ++ "')"

/-- `PowerBIConnector.get_table_schema` (server.py lines 267-293): probe the
table with a top-1 query and return its columns; if the probe raises, fall
back to `get_measures_for_table`; any exception escaping the outer try
(a failed connection open, or a raising fallback preamble) is re-raised
with a fixed text and the message appended. -/
def PowerBIConnector.get_table_schema (pyadomd : Bool) (st : ConnState)
    (drv : Driver) (table_name : String) :
    Except String TableSchema × List DriverCall :=
  if !st.connected then (.error notConnectedMsg, [])
  else if !pyadomd then (.error pyadomdMsg, [])
  else
    let cs := st.connection_string.getD ""
    match drv.openConn cs with
    | .error e =>
      (.error ("Failed to get schema for table '" ++ table_name ++ "': " ++ e),
        [.openConn cs])
    | .ok _ =>
      match drv.query (probeQuery table_name) with
      | .ok (headers, _) =>
        (.ok (.data_table table_name headers), [.openConn cs, .query (probeQuery table_name)])
      | .error _ =>
        match PowerBIConnector.get_measures_for_table pyadomd st drv table_name with
        | (.ok d, tr) => (.ok d, [.openConn cs, .query (probeQuery table_name)] ++ tr)
        | (.error e, tr) =>
          (.error ("Failed to get schema for table '" ++ table_name ++ "': " ++ e),
            [.openConn cs, .query (probeQuery table_name)] ++ tr)

/-- `PowerBIConnector.execute_dax_query` (server.py lines 332-362): require
`connected` and the library, sanitize the query, execute it and return the
rows zipped with the column headers; driver failures are re-raised with a
fixed text and the message appended. -/
def PowerBIConnector.execute_dax_query (pyadomd : Bool) (st : ConnState)
    (drv : Driver) (dax_query : String) :
    Except String (List (List (String × PBValue))) × List DriverCall :=
  if !st.connected then (.error notConnectedMsg, [])
  else if !pyadomd then (.error pyadomdMsg, [])
  else
    let cleaned := clean_dax_query dax_query
    let cs := st.connection_string.getD ""
    match drv.openConn cs with
    | .error e => (.error ("DAX query failed: " ++ e), [.openConn cs])
    | .ok _ =>
      match drv.query cleaned with
      | .error e => (.error ("DAX query failed: " ++ e), [.openConn cs, .query cleaned])
      | .ok (headers, rows) =>
        (.ok (rows.map (fun r => headers.zip r)), [.openConn cs, .query cleaned])

/-- The top-N sample query of `get_sample_data` (server.py line 366). -/
def sampleQuery (table_name : String) (num_rows : Nat) : String :=
  "EVALUATE TOPN(" ++ toString num_rows ++ ", '" ++ table_name ++ "')"

/-- `PowerBIConnector.get_sample_data` (server.py lines 364-367): delegate
to `execute_dax_query` with a top-N query. -/
def PowerBIConnector.get_sample_data (pyadomd : Bool) (st : ConnState)
    (drv : Driver) (table_name : String) (num_rows : Nat := 10) :
    Except String (List (List (String × PBValue))) × List DriverCall :=
  PowerBIConnector.execute_dax_query pyadomd st drv (sampleQuery table_name num_rows)


/-! ## Context primer (`PowerBIMCPServer._async_prepare_context`,
server.py lines 663-693)

The primer discovers tables, walks the first five, records each schema that
could be fetched, and for descriptors of kind `data_table` additionally
fetches a 3-row sample.  A failure on one table is caught inside the loop
(lines 685-686); a failure of discovery escapes the loop but is caught by
the outer handler (lines 692-693).  The resulting context is installed only
when an analyzer exists (lines 688-689). -/

/-- The context the primer installs on the analyzer
(`DataAnalyzer.set_data_context`, server.py lines 375-379). -/
structure AnalysisContext where
  tables : List String
  schemas : List (String × TableSchema)
  sample_data : List (String × List (List (String × PBValue)))
  deriving DecidableEq, Repr

/-- One iteration of the priming loop (server.py lines 673-686): fetch the
schema of one table; on failure keep the accumulator unchanged (the
exception is logged and the table skipped); on success record the schema,
and when its kind is `data_table`, attempt a 3-row sample whose failure is
likewise swallowed after the schema was recorded. -/
def prime_table (pyadomd : Bool) (st : ConnState) (drv : Driver)
    (acc : List (String × TableSchema) × List (String × List (List (String × PBValue))))
    (t : String) :
    List (String × TableSchema) × List (String × List (List (String × PBValue))) :=
  match (PowerBIConnector.get_table_schema pyadomd st drv t).1 with
  | .error _ => acc
  | .ok schema =>
    let schemas := acc.1 ++ [(t, schema)]
    if schema.kind == "data_table" then
      match (PowerBIConnector.get_sample_data pyadomd st drv t 3).1 with
      | .error _ => (schemas, acc.2)
      | .ok rows => (schemas, acc.2 ++ [(t, rows)])
    else (schemas, acc.2)

/-- The body of `_async_prepare_context` without its outer exception
handler: discovery may fail (its exception propagates to the handler);
per-table work never fails.  Returns the connector state after discovery
and the context to install (none when no analyzer is present). -/
def asyncPrepareBody (pyadomd : Bool) (st : ConnState) (drv : Driver)
    (analyzer : Bool) : Except String (ConnState × Option AnalysisContext) :=
  match PowerBIConnector.discover_tables pyadomd st drv with
  | (.error e, _, _) => .error e
  | (.ok tables, st2, _) =>
    let primed := (tables.take 5).foldl (prime_table pyadomd st2 drv) ([], [])
    if analyzer then .ok (st2, some ⟨tables, primed.1, primed.2⟩)
    else .ok (st2, none)

/-- `PowerBIMCPServer._async_prepare_context` (server.py lines 663-693):
the body wrapped in the outer try whose handler only logs, so the task
always completes and surfaces no failure. -/
def PowerBIMCPServer.async_prepare_context (pyadomd : Bool) (st : ConnState)
    (drv : Driver) (analyzer : Bool) : ConnState × Option AnalysisContext :=
  match asyncPrepareBody pyadomd st drv analyzer with
  | .ok r => r
  | .error _ => (st, none)

/-! ## Tool dispatcher (`PowerBIMCPServer`, server.py lines 497-615)

`_openai_enabled` re-reads the environment on every call
(`bool(os.getenv("OPENAI_API_KEY"))`, line 499).  The advertised tool list
(lines 502-570) appends the two natural-language tools only when it returns
true, and `handle_call_tool` (lines 582-615) re-checks it on each
invocation of those two tools.  The per-tool handlers are abstracted as an
oracle from tool name to result text: the claims below concern only the
dispatch structure around them. -/

/-- Python `os.getenv` over an explicit environment. -/
def getenv (env : List (String × String)) (key : String) : Option String :=
  (env.find? (fun p => p.1 == key)).map Prod.snd

/-- `PowerBIMCPServer._openai_enabled` (server.py lines 497-499):
`bool(os.getenv("OPENAI_API_KEY"))` — true exactly when the variable is set
to a non-empty string. -/
def openai_enabled (env : List (String × String)) : Bool :=
  match getenv env "OPENAI_API_KEY" with
  | some v => !(v == "")
  | none => false

/-- The four unconditionally advertised tools, in the order of
`handle_list_tools` (server.py lines 504-546). -/
def baseTools : List String :=
  ["connect_powerbi", "list_tables", "get_table_info", "execute_dax"]

/-- `handle_list_tools` (server.py lines 502-570), reduced to the names of
the advertised tools: the two natural-language tools are appended exactly
when `_openai_enabled()` holds at listing time. -/
def handle_list_tools (env : List (String × String)) : List String :=
  baseTools ++ (if openai_enabled env then ["query_data", "suggest_questions"] else [])

/-- Fixed text returned when a natural-language tool is invoked without an
API key (server.py lines 596, 603). -/
def notConfiguredMsg : String := "OpenAI API key not configured."

/-- `handle_call_tool` (server.py lines 582-615) with the per-tool handlers
abstracted as `handlers`: the dispatch chain in source order, with the
environment re-checked at call time for the two natural-language tools. -/
def handle_call_tool (env : List (String × String)) (handlers : String → String)
    (name : String) : String :=
  if name == "connect_powerbi" then handlers name
  else if name == "list_tables" then handlers name
  else if name == "get_table_info" then handlers name
  else if name == "query_data" then
    if !(openai_enabled env) then notConfiguredMsg else handlers name
  else if name == "execute_dax" then handlers name
  else if name == "suggest_questions" then
    if !(openai_enabled env) then notConfiguredMsg else handlers name
  else "Unknown tool: " ++ name

/-! ## JSON serialization (`PowerBIJSONEncoder`, server.py lines 44-59)

`default` is invoked by the JSON machinery on every value that is not a
JSON primitive.  The branches in source order: datetime/date values are
rendered by `isoformat()`; `Decimal` values are widened by `float()`;
values exposing an attribute dictionary are rendered by `str()`; everything
else reaches `super().default(obj)`, which raises
`TypeError("Object of type ... is not JSON serializable")`.
A Python value is modelled by the branch it hits plus the data the branch
reads: the isoformat string of a datetime or date, the exact components of
a Decimal, the `str()` form of an object with an attribute dictionary, and
the type name and `str()` form of an object with none (for example a set). -/

/-- A non-primitive Python value, classified by the first encoder branch
that applies to it. -/
inductive PyNonPrim where
  | datetime (iso : String)
  | date (iso : String)
  | decimal (mantissa : Int) (exponent : Int)
  | objWithDict (strForm : String)
  | otherNoDict (typeName : String) (strForm : String)
  deriving DecidableEq, Repr

/-- What the encoder substitutes for a non-primitive value: a JSON string,
or the floating-point widening of a Decimal (carried symbolically by the
Decimal components handed to `float()`). -/
inductive EncOut where
  | jsonStr (s : String)
  | jsonFloat (mantissa : Int) (exponent : Int)
  deriving DecidableEq, Repr

/-- `PowerBIJSONEncoder.default` (server.py lines 47-54). -/
def PowerBIJSONEncoder.default : PyNonPrim → Except String EncOut
  | .datetime iso => .ok (.jsonStr iso)
  | .date iso => .ok (.jsonStr iso)
  | .decimal m e => .ok (.jsonFloat m e)
  | .objWithDict s => .ok (.jsonStr s)
  | .otherNoDict tn _ => .error ("Object of type " ++ tn ++ " is not JSON serializable")

/-- A Python value inside a result row: a JSON primitive, or a
non-primitive handed to `PowerBIJSONEncoder.default`. -/
inductive PyVal where
  | pstr (s : String)
  | pint (n : Int)
  | pbool (b : Bool)
  | pnone
  | nonprim (v : PyNonPrim)
  deriving DecidableEq, Repr

/-- A serialized JSON value. -/
inductive JVal where
  | js (s : String)
  | ji (n : Int)
  | jb (b : Bool)
  | jnull
  | jf (mantissa : Int) (exponent : Int)
  deriving DecidableEq, Repr

/-- Serialization of one row value by `json.dumps` with
`PowerBIJSONEncoder`: primitives are emitted directly, non-primitives go
through `default`, whose `TypeError` propagates. -/
def encodeVal : PyVal → Except String JVal
  | .pstr s => .ok (.js s)
  | .pint n => .ok (.ji n)
  | .pbool b => .ok (.jb b)
  | .pnone => .ok .jnull
  | .nonprim v =>
    match PowerBIJSONEncoder.default v with
    | .ok (.jsonStr s) => .ok (.js s)
    | .ok (.jsonFloat m e) => .ok (.jf m e)
    | .error e => .error e

/-- Serialization of one result row (a mapping from column names to
values), failing as soon as one value fails. -/
def serializeRow : List (String × PyVal) → Except String (List (String × JVal))
  | [] => .ok []
  | (k, v) :: rest =>
    match encodeVal v with
    | .error e => .error e
    | .ok jv =>
      match serializeRow rest with
      | .error e => .error e
      | .ok out => .ok ((k, jv) :: out)

/-! ## Decidability helper -/

/-- Decidable equality for `Except`, used to evaluate concrete operation
results in witnesses. -/
instance exceptDecEq {ε α : Type} [DecidableEq ε] [DecidableEq α] :
    DecidableEq (Except ε α) := fun x y =>
  match x, y with
  | .ok a, .ok b =>
    if h : a = b then isTrue (h ▸ rfl) else isFalse (fun he => h (Except.ok.inj he))
  | .error a, .error b =>
    if h : a = b then isTrue (h ▸ rfl) else isFalse (fun he => h (Except.error.inj he))
  | .ok _, .error _ => isFalse (fun he => Except.noConfusion he)
  | .error _, .ok _ => isFalse (fun he => Except.noConfusion he)

/-! ## Concrete fixtures used by witnesses and counterexamples -/

/-- A connected connector state with an empty discovery cache. -/
def stConn : ConnState :=
  { connection_string := some "cs", connected := true, tables := [] }

/-- A driver on which every call succeeds and returns nothing. -/
def drvEmpty : Driver :=
  { openConn := fun _ => .ok ()
    schemaTables := .ok []
    query := fun _ => .ok ([], [])
    tableId := fun _ => .ok none
    measures := fun _ => .ok [] }

/-- A driver whose connection probe fails. -/
def drvConnFail : Driver :=
  { drvEmpty with openConn := fun _ => .error "boom" }

/-! ## C1 — the sanitizer and comparison operators -/

/-- C1 counterexample: on the input named by the claim the sanitizer does
not preserve the bare comparison span `A < 5` — the regex treats the bare
less-than as the opening of a span that closes at the first
greater-than of the markup tag, so the code returns "A X B > 2", not the
claimed "A < 5 X B > 2". -/
theorem clean_dax_query_claim_counterexample :
    clean_dax_query "A < 5 <tag>X</tag> B > 2" = "A X B > 2" ∧
    clean_dax_query "A < 5 <tag>X</tag> B > 2" ≠ "A < 5 X B > 2" := by
  constructor
  · rfl
  · decide

/-- C1 (amended): the sanitizer removes every span reaching from a
less-than to the next following greater-than with at least one character
between them — including spans opened by a bare comparison less-than — and
collapses whitespace; on the cited input it returns "A X B > 2".
Comparison operators are preserved exactly when no such span can form: a
query containing no less-than at all, or no greater-than at all, is only
whitespace-collapsed, every bracket kept. -/
theorem clean_dax_query_amended :
    clean_dax_query "A < 5 <tag>X</tag> B > 2" = "A X B > 2" ∧
    (∀ s : List Char, '<' ∉ s → cleanDaxList s = collapseWs s) ∧
    (∀ s : List Char, '>' ∉ s → cleanDaxList s = collapseWs s) := by
  refine ⟨by rfl, ?_, ?_⟩
  · intro s h
    unfold cleanDaxList
    rw [removeTags_no_lt h]
  · intro s h
    unfold cleanDaxList
    rw [removeTags_no_gt h]

/-- Witness for the amended C1 statement at concrete inputs: a query with
only a bare greater-than comparison is preserved up to whitespace, and the
cited input evaluates as stated. -/
theorem clean_dax_query_amended_witness :
    ('<' ∉ "A > 2".data ∧ cleanDaxList "A > 2".data = collapseWs "A > 2".data) ∧
    clean_dax_query "A < 5 <tag>X</tag> B > 2" = "A X B > 2" :=
  ⟨⟨by decide, clean_dax_query_amended.2.1 _ (by decide)⟩, clean_dax_query_amended.1⟩

/-! ## C2 — operations other than connect fail fast when not connected -/

/-- C2: with the `connected` flag false, each of the four operations fails
with the fixed not-connected message, leaves the state unchanged, and
performs zero calls into the blocking driver (empty trace), whatever the
driver would answer. -/
theorem not_connected_fails_fast (pyadomd : Bool) (st : ConnState) (drv : Driver)
    (t q : String) (n : Nat) (h : st.connected = false) :
    PowerBIConnector.discover_tables pyadomd st drv = (.error notConnectedMsg, st, []) ∧
    PowerBIConnector.get_table_schema pyadomd st drv t = (.error notConnectedMsg, []) ∧
    PowerBIConnector.execute_dax_query pyadomd st drv q = (.error notConnectedMsg, []) ∧
    PowerBIConnector.get_sample_data pyadomd st drv t n = (.error notConnectedMsg, []) ∧
    PowerBIConnector.get_measures_for_table pyadomd st drv t = (.error notConnectedMsg, []) := by
  refine ⟨?_, ?_, ?_, ?_, ?_⟩ <;>
    simp [PowerBIConnector.discover_tables, PowerBIConnector.get_table_schema,
      PowerBIConnector.execute_dax_query, PowerBIConnector.get_sample_data,
      PowerBIConnector.get_measures_for_table, h]

/-- Witness for C2 at a concrete disconnected state and a driver that would
answer every call. -/
theorem not_connected_fails_fast_witness :
    ({} : ConnState).connected = false ∧
    PowerBIConnector.discover_tables true {} drvEmpty =
      (.error notConnectedMsg, {}, []) ∧
    PowerBIConnector.execute_dax_query true {} drvEmpty "EVALUATE T" =
      (.error notConnectedMsg, []) :=
  ⟨rfl, (not_connected_fails_fast true {} drvEmpty "T" "EVALUATE T" 3 rfl).1,
    (not_connected_fails_fast true {} drvEmpty "T" "EVALUATE T" 3 rfl).2.2.1⟩

/-! ## C7 — connect: one probe, success and failure paths -/

/-- C7: `connect` builds the provider string and probes the driver exactly
once.  On success it returns `True` with `connected` set and the string
stored; on failure it raises an exception whose text is the fixed text
followed by the driver message verbatim, with `connected` cleared. -/
theorem connect_spec (st : ConnState) (drv : Driver)
    (xe ti ci sec cat : String) :
    (drv.openConn (buildConnStr xe ti ci sec cat) = .ok () →
      PowerBIConnector.connect true st drv xe ti ci sec cat =
        (.ok true,
         { st with connection_string := some (buildConnStr xe ti ci sec cat),
                   connected := true },
         [.openConn (buildConnStr xe ti ci sec cat)])) ∧
    (∀ e, drv.openConn (buildConnStr xe ti ci sec cat) = .error e →
      PowerBIConnector.connect true st drv xe ti ci sec cat =
        (.error ("Connection failed: " ++ e),
         { st with connection_string := some (buildConnStr xe ti ci sec cat),
                   connected := false },
         [.openConn (buildConnStr xe ti ci sec cat)])) := by
  constructor
  · intro h
    simp [PowerBIConnector.connect, h]
  · intro e h
    simp [PowerBIConnector.connect, h]

/-- Witness for C7: a succeeding and a failing probe at concrete arguments. -/
theorem connect_spec_witness :
    PowerBIConnector.connect true {} drvEmpty "x" "t" "c" "s" "cat" =
      (.ok true,
       { connection_string := some (buildConnStr "x" "t" "c" "s" "cat"),
         connected := true, tables := [] },
       [.openConn (buildConnStr "x" "t" "c" "s" "cat")]) ∧
    PowerBIConnector.connect true {} drvConnFail "x" "t" "c" "s" "cat" =
      (.error ("Connection failed: " ++ "boom"),
       { connection_string := some (buildConnStr "x" "t" "c" "s" "cat"),
         connected := false, tables := [] },
       [.openConn (buildConnStr "x" "t" "c" "s" "cat")]) :=
  ⟨(connect_spec {} drvEmpty "x" "t" "c" "s" "cat").1 rfl,
   (connect_spec {} drvConnFail "x" "t" "c" "s" "cat").2 "boom" rfl⟩

/-! ## C10 — the connection string names the failed target after a failed
connect -/

/-- C10: the connection string is overwritten with the newly built provider
string before the probe and is not restored on failure: after a failed
connect the state stores the failed target's string while `connected` is
false. -/
theorem connect_failure_keeps_new_string (st : ConnState) (drv : Driver)
    (xe ti ci sec cat e : String)
    (h : drv.openConn (buildConnStr xe ti ci sec cat) = .error e) :
    ((PowerBIConnector.connect true st drv xe ti ci sec cat).2.1).connection_string
      = some (buildConnStr xe ti ci sec cat) ∧
    ((PowerBIConnector.connect true st drv xe ti ci sec cat).2.1).connected = false ∧
    (PowerBIConnector.connect true st drv xe ti ci sec cat).1 =
      .error ("Connection failed: " ++ e) := by
  simp [PowerBIConnector.connect, h]

/-- Witness for C10 at a concrete failing driver: the stored string names
the failed target. -/
theorem connect_failure_keeps_new_string_witness :
    drvConnFail.openConn (buildConnStr "x2" "t2" "c2" "s2" "cat2") = .error "boom" ∧
    ((PowerBIConnector.connect true {} drvConnFail "x2" "t2" "c2" "s2" "cat2").2.1).connection_string
      = some (buildConnStr "x2" "t2" "c2" "s2" "cat2") ∧
    ((PowerBIConnector.connect true {} drvConnFail "x2" "t2" "c2" "s2" "cat2").2.1).connected = false :=
  ⟨rfl,
   (connect_failure_keeps_new_string {} drvConnFail "x2" "t2" "c2" "s2" "cat2" "boom" rfl).1,
   (connect_failure_keeps_new_string {} drvConnFail "x2" "t2" "c2" "s2" "cat2" "boom" rfl).2.1⟩

/-! ## C8 — discovery filtering -/

/-- C8: on a fresh discovery the returned list is exactly the raw catalog
rows with the reserved names removed — a row is dropped precisely when its
name starts with the dollar sign, or starts with "DateTableTemplate_"
(exact, case-sensitive matches), or its schema namespace equals "$SYSTEM" —
mapped to their names in the original order; the filtered list is also
cached in the state. -/
theorem discover_tables_filter (p : Bool) (st : ConnState) (drv : Driver)
    (rows : List SchemaRow) (rest : List (List SchemaRow))
    (hconn : st.connected = true) (hp : p = true) (hcache : st.tables = [])
    (hopen : drv.openConn (st.connection_string.getD "") = .ok ())
    (hrows : drv.schemaTables = .ok (rows :: rest)) :
    PowerBIConnector.discover_tables p st drv =
      (.ok ((rows.filter (fun r =>
          !(strStartsWith r.TABLE_NAME "$") &&
          !(strStartsWith r.TABLE_NAME "DateTableTemplate_") &&
          !(r.TABLE_SCHEMA == "$SYSTEM"))).map SchemaRow.TABLE_NAME),
       { st with tables := (rows.filter (fun r =>
          !(strStartsWith r.TABLE_NAME "$") &&
          !(strStartsWith r.TABLE_NAME "DateTableTemplate_") &&
          !(r.TABLE_SCHEMA == "$SYSTEM"))).map SchemaRow.TABLE_NAME },
       [.openConn (st.connection_string.getD ""), .getSchemaDataSet]) := by
  subst hp
  simp [PowerBIConnector.discover_tables, hconn, hcache, hopen, hrows]
  rfl

/-- The raw catalog rows of the spec example, augmented with a
system-namespace row. -/
def rowsExample : List SchemaRow :=
  [⟨"$Foo", "model"⟩, ⟨"DateTableTemplate_1", "model"⟩,
   ⟨"Sales", "model"⟩, ⟨"Hidden", "$SYSTEM"⟩]

/-- A driver whose schema catalog returns the example rows. -/
def drvCatalog : Driver := { drvEmpty with schemaTables := .ok [rowsExample] }

/-- The lowercase variant of the reserved prefix, as a one-row catalog. -/
def rowsLower : List SchemaRow := [⟨"datetabletemplate_1", "model"⟩]

/-- A driver whose schema catalog returns the lowercase-name row. -/
def drvCatalogLower : Driver := { drvEmpty with schemaTables := .ok [rowsLower] }

/-- Witness for C8: the raw catalog of the spec example — augmented with a
system-namespace row — yields exactly ["Sales"], and a lowercase
"datetabletemplate_1" row is kept (the match is case-sensitive). -/
theorem discover_tables_filter_witness :
    PowerBIConnector.discover_tables true stConn drvCatalog =
      (.ok ["Sales"], { stConn with tables := ["Sales"] },
       [.openConn "cs", .getSchemaDataSet]) ∧
    PowerBIConnector.discover_tables true stConn drvCatalogLower =
      (.ok ["datetabletemplate_1"],
       { stConn with tables := ["datetabletemplate_1"] },
       [.openConn "cs", .getSchemaDataSet]) := by
  constructor
  · exact (discover_tables_filter true stConn drvCatalog rowsExample []
      rfl rfl rfl rfl rfl).trans (by decide)
  · exact (discover_tables_filter true stConn drvCatalogLower rowsLower []
      rfl rfl rfl rfl rfl).trans (by decide)

/-! ## C3 — schema fallback on probe failure -/

/-- A driver whose cursor queries all fail (every probe fails) and whose
measure-table id lookup finds no row. -/
def drvProbeFailUnknown : Driver :=
  { drvEmpty with query := fun _ => .error "probe failed" }

/-- C3 counterexample: with a failing probe and an id lookup that returns
no row, `get_table_schema` returns the descriptor of kind "unknown" — not
"measure_table", and not "error" although no further failure occurred. -/
theorem get_table_schema_kind_counterexample :
    drvProbeFailUnknown.query (probeQuery "T") = .error "probe failed" ∧
    (PowerBIConnector.get_table_schema true stConn drvProbeFailUnknown "T").1 =
      .ok (.unknown "T") ∧
    TableSchema.kind (.unknown "T") ≠ "measure_table" ∧
    TableSchema.kind (.unknown "T") ≠ "error" := by
  refine ⟨rfl, rfl, ?_, ?_⟩ <;> decide

/-- C3 (amended): when the column probe fails, `get_table_schema` falls
back to the measure-metadata path and always returns a descriptor (never
raises): of kind `measure_table` with the measures when the table id
resolves and the measure listing succeeds, of kind `unknown` when the id
lookup finds no row, and of kind `error` carrying the message when a
further driver call fails. -/
theorem get_table_schema_probe_fallback (st : ConnState) (drv : Driver)
    (t pe : String)
    (hconn : st.connected = true)
    (hopen : drv.openConn (st.connection_string.getD "") = .ok ())
    (hprobe : drv.query (probeQuery t) = .error pe) :
    ∃ d : TableSchema,
      (PowerBIConnector.get_table_schema true st drv t).1 = .ok d ∧
      (d.kind = "measure_table" ∨ d.kind = "unknown" ∨ d.kind = "error") ∧
      (∀ id ms, drv.tableId t = .ok (some id) → drv.measures id = .ok ms →
        d = .measure_table t ms) ∧
      (∀ id e, drv.tableId t = .ok (some id) → drv.measures id = .error e →
        d = .error t e) ∧
      (drv.tableId t = .ok none → d = .unknown t) ∧
      (∀ e, drv.tableId t = .error e → d = .error t e) := by
  cases hid : drv.tableId t with
  | error e =>
    refine ⟨.error t e, ?_, Or.inr (Or.inr rfl), ?_, ?_, ?_, ?_⟩
    · simp [PowerBIConnector.get_table_schema, PowerBIConnector.get_measures_for_table,
        hconn, hopen, hprobe, hid]
    · intro id ms h1 _; exact Except.noConfusion h1
    · intro id e2 h1 _; exact Except.noConfusion h1
    · intro h1; exact Except.noConfusion h1
    · intro e2 h1
      rw [Except.error.inj h1]
  | ok idOpt =>
    cases idOpt with
    | none =>
      refine ⟨.unknown t, ?_, Or.inr (Or.inl rfl), ?_, ?_, fun _ => rfl, ?_⟩
      · simp [PowerBIConnector.get_table_schema, PowerBIConnector.get_measures_for_table,
          hconn, hopen, hprobe, hid]
      · intro id ms h1 _
        exact Option.noConfusion (Except.ok.inj h1)
      · intro id e h1 _
        exact Option.noConfusion (Except.ok.inj h1)
      · intro e h1; exact Except.noConfusion h1
    | some id =>
      cases hms : drv.measures id with
      | error e =>
        refine ⟨.error t e, ?_, Or.inr (Or.inr rfl), ?_, ?_, ?_, ?_⟩
        · simp [PowerBIConnector.get_table_schema, PowerBIConnector.get_measures_for_table,
            hconn, hopen, hprobe, hid, hms]
        · intro id2 ms h1 h2
          rw [← Option.some.inj (Except.ok.inj h1)] at h2
          rw [hms] at h2
          exact Except.noConfusion h2
        · intro id2 e2 h1 h2
          rw [← Option.some.inj (Except.ok.inj h1)] at h2
          rw [hms] at h2
          rw [Except.error.inj h2]
        · intro h1
          exact Option.noConfusion (Except.ok.inj h1)
        · intro e2 h1; exact Except.noConfusion h1
      | ok ms =>
        refine ⟨.measure_table t ms, ?_, Or.inl rfl, ?_, ?_, ?_, ?_⟩
        · simp [PowerBIConnector.get_table_schema, PowerBIConnector.get_measures_for_table,
            hconn, hopen, hprobe, hid, hms]
        · intro id2 ms2 h1 h2
          rw [← Option.some.inj (Except.ok.inj h1)] at h2
          rw [hms] at h2
          rw [Except.ok.inj h2]
        · intro id2 e h1 h2
          rw [← Option.some.inj (Except.ok.inj h1)] at h2
          rw [hms] at h2
          exact Except.noConfusion h2
        · intro h1
          exact Option.noConfusion (Except.ok.inj h1)
        · intro e h1; exact Except.noConfusion h1

/-- A driver whose cursor queries fail but whose measure metadata resolves:
the id lookup returns 7 and table id 7 carries one measure. -/
def drvMeasureTable : Driver :=
  { drvEmpty with
    query := fun _ => .error "probe failed"
    tableId := fun _ => .ok (some 7)
    measures := fun _ => .ok [("Total Sales", "SUM(Sales[Amount])")] }

/-- A driver whose cursor queries fail, whose id lookup resolves to 7, and
whose measure listing then fails. -/
def drvMeasuresFail : Driver :=
  { drvEmpty with
    query := fun _ => .error "probe failed"
    tableId := fun _ => .ok (some 7)
    measures := fun _ => .error "listing failed" }

/-- Witness for the amended C3 statement: on a concrete driver the fallback
produces the measure-table descriptor with its measure list, and on one
whose measure listing fails it produces — without raising — the error-kind
descriptor carrying that message. -/
theorem get_table_schema_probe_fallback_witness :
    (∃ d : TableSchema,
      (PowerBIConnector.get_table_schema true stConn drvMeasureTable "Finance").1 =
        .ok d ∧
      (d.kind = "measure_table" ∨ d.kind = "unknown" ∨ d.kind = "error") ∧
      d = .measure_table "Finance" [("Total Sales", "SUM(Sales[Amount])")]) ∧
    (∃ d : TableSchema,
      (PowerBIConnector.get_table_schema true stConn drvMeasuresFail "Finance").1 =
        .ok d ∧
      d = .error "Finance" "listing failed") := by
  constructor
  · obtain ⟨d, h1, h2, h3, _, _, _⟩ :=
      get_table_schema_probe_fallback stConn drvMeasureTable "Finance" "probe failed"
        rfl rfl rfl
    exact ⟨d, h1, h2, h3 7 [("Total Sales", "SUM(Sales[Amount])")] rfl rfl⟩
  · obtain ⟨d, h1, _, _, h4, _, _⟩ :=
      get_table_schema_probe_fallback stConn drvMeasuresFail "Finance" "probe failed"
        rfl rfl rfl
    exact ⟨d, h1, h4 7 "listing failed" rfl rfl⟩

/-! ## C4 — discovery memoization -/

/-- A driver whose catalog holds only a reserved-name table, so a fresh
discovery returns the empty list. -/
def drvDollarOnly : Driver :=
  { drvEmpty with schemaTables := .ok [[⟨"$Foo", "model"⟩]] }

/-- A driver whose catalog holds the single user table "Sales", standing
for the driver answering differently on a later probe. -/
def drvSalesOnly : Driver :=
  { drvEmpty with schemaTables := .ok [[⟨"Sales", "model"⟩]] }

/-- C4 counterexample: when the first discovery returns the empty list, the
cache stays empty and the second call re-queries the driver — its trace
holds two driver calls, not zero — and against a driver whose catalog
changed it returns a different sequence than the first call. -/
theorem discover_tables_memo_counterexample :
    (PowerBIConnector.discover_tables true stConn drvDollarOnly).1 = .ok [] ∧
    (PowerBIConnector.discover_tables true
        (PowerBIConnector.discover_tables true stConn drvDollarOnly).2.1
        drvDollarOnly).2.2 =
      [DriverCall.openConn "cs", DriverCall.getSchemaDataSet] ∧
    ([DriverCall.openConn "cs", DriverCall.getSchemaDataSet] : List DriverCall) ≠ [] ∧
    (PowerBIConnector.discover_tables true
        (PowerBIConnector.discover_tables true stConn drvDollarOnly).2.1
        drvSalesOnly).1 = .ok ["Sales"] ∧
    (Except.ok ["Sales"] : Except String (List String)) ≠ .ok [] := by
  refine ⟨rfl, rfl, ?_, rfl, ?_⟩ <;> decide

/-- C4 (amended): after a first discovery that returned a non-empty list, a
second call without an intervening reconnect returns the identical list
from the cache with zero driver calls, whatever the driver would now
answer; but after a first discovery that returned the empty list, the
second call queries the driver again. -/
theorem discover_tables_memoized (p : Bool) (st : ConnState) (drv drv2 : Driver) :
    (∀ st1 ts tr, PowerBIConnector.discover_tables p st drv = (.ok ts, st1, tr) →
       ts ≠ [] →
       PowerBIConnector.discover_tables p st1 drv2 = (.ok ts, st1, [])) ∧
    (∀ st1 tr, PowerBIConnector.discover_tables p st drv = (.ok [], st1, tr) →
       (PowerBIConnector.discover_tables p st1 drv).2.2 ≠ []) := by
  constructor
  · intro st1 ts tr h hne
    by_cases hc : st.connected
    · by_cases hp : p
      · by_cases hcache : st.tables.isEmpty
        · -- fresh discovery: analyze the driver calls of the first run
          cases hoc : drv.openConn (st.connection_string.getD "") with
          | error e =>
            simp [PowerBIConnector.discover_tables, hc, hp, hcache, hoc] at h
          | ok u =>
            cases hst : drv.schemaTables with
            | error e =>
              simp [PowerBIConnector.discover_tables, hc, hp, hcache, hoc, hst] at h
            | ok tablesets =>
              simp [PowerBIConnector.discover_tables, hc, hp, hcache, hoc, hst] at h
              obtain ⟨hts, hst1, -⟩ := h
              cases ts with
              | nil => exact absurd rfl hne
              | cons a as =>
                rw [← hst1]
                simp [PowerBIConnector.discover_tables, hc, hp, hts]
        · -- cached: the first call returned the cache unchanged
          simp [PowerBIConnector.discover_tables, hc, hp, hcache] at h
          obtain ⟨hts, hst1, -⟩ := h
          rw [← hst1]
          cases hts2 : ts with
          | nil => exact absurd hts2 hne
          | cons a as =>
            rw [hts2] at hts
            simp [PowerBIConnector.discover_tables, hc, hp, hts]
      · simp [PowerBIConnector.discover_tables, hc, hp] at h
    · simp [PowerBIConnector.discover_tables, hc] at h
  · intro st1 tr h
    by_cases hc : st.connected
    · by_cases hp : p
      · by_cases hcache : st.tables.isEmpty
        · cases hoc : drv.openConn (st.connection_string.getD "") with
          | error e =>
            simp [PowerBIConnector.discover_tables, hc, hp, hcache, hoc] at h
          | ok u =>
            cases hst : drv.schemaTables with
            | error e =>
              simp [PowerBIConnector.discover_tables, hc, hp, hcache, hoc, hst] at h
            | ok tablesets =>
              simp [PowerBIConnector.discover_tables, hc, hp, hcache, hoc, hst] at h
              obtain ⟨hts, hst1, -⟩ := h
              rw [← hst1]
              simp [PowerBIConnector.discover_tables, hc, hp, hoc, hst, hts]
              rw [if_neg]
              · simp
              · rintro ⟨x, hx, hkx⟩
                rw [hts x hx] at hkx
                exact Bool.noConfusion hkx
        · -- cached branch cannot have produced the empty list
          simp [PowerBIConnector.discover_tables, hc, hp, hcache] at h
          obtain ⟨hts, -, -⟩ := h
          rw [hts] at hcache
          simp at hcache
      · simp [PowerBIConnector.discover_tables, hc, hp] at h
    · simp [PowerBIConnector.discover_tables, hc] at h

/-- A driver whose catalog holds two user tables. -/
def drvTwoTables : Driver :=
  { drvEmpty with schemaTables := .ok [[⟨"Sales", "model"⟩, ⟨"Costs", "model"⟩]] }

/-- Witness for the amended C4 statement: a first discovery caches
["Sales", "Costs"]; the second call — against a driver whose catalog
changed to a single table — still returns the cached pair with no driver
calls. -/
theorem discover_tables_memoized_witness :
    PowerBIConnector.discover_tables true stConn drvTwoTables =
      (.ok ["Sales", "Costs"], { stConn with tables := ["Sales", "Costs"] },
       [.openConn "cs", .getSchemaDataSet]) ∧
    PowerBIConnector.discover_tables true
        { stConn with tables := ["Sales", "Costs"] } drvSalesOnly =
      (.ok ["Sales", "Costs"], { stConn with tables := ["Sales", "Costs"] }, []) :=
  ⟨rfl,
   (discover_tables_memoized true stConn drvTwoTables drvSalesOnly).1
     { stConn with tables := ["Sales", "Costs"] } ["Sales", "Costs"]
     [.openConn "cs", .getSchemaDataSet] rfl (by decide)⟩

/-! ## C9 — row serialization -/

/-- C9 counterexample: a non-primitive value without an attribute
dictionary — a Python set, for instance — is not rendered via its string
form: the base encoder raises, and the row serialization fails. -/
theorem encoder_counterexample :
    PowerBIJSONEncoder.default (.otherNoDict "set" "set()") =
      .error "Object of type set is not JSON serializable" ∧
    serializeRow [("col", PyVal.nonprim (.otherNoDict "set" "set()"))] =
      .error "Object of type set is not JSON serializable" := by
  exact ⟨rfl, rfl⟩

/-- C9 (amended): date and datetime values are rendered as their ISO-8601
strings, Decimal values are widened to floating point, and a non-primitive
value exposing an attribute dictionary is rendered via its string form;
but a non-primitive without an attribute dictionary reaches the base
encoder, which raises a TypeError naming the type.  A row all of whose
values are serializable serializes without raising, keys in order. -/
theorem encoder_amended :
    (∀ iso, PowerBIJSONEncoder.default (.datetime iso) = .ok (.jsonStr iso)) ∧
    (∀ iso, PowerBIJSONEncoder.default (.date iso) = .ok (.jsonStr iso)) ∧
    (∀ m e, PowerBIJSONEncoder.default (.decimal m e) = .ok (.jsonFloat m e)) ∧
    (∀ s, PowerBIJSONEncoder.default (.objWithDict s) = .ok (.jsonStr s)) ∧
    (∀ tn s, PowerBIJSONEncoder.default (.otherNoDict tn s) =
      .error ("Object of type " ++ tn ++ " is not JSON serializable")) ∧
    (∀ row : List (String × PyVal), (∀ p ∈ row, ∃ jv, encodeVal p.2 = .ok jv) →
      ∃ out, serializeRow row = .ok out ∧ out.map Prod.fst = row.map Prod.fst) := by
  refine ⟨fun _ => rfl, fun _ => rfl, fun _ _ => rfl, fun _ => rfl, fun _ _ => rfl, ?_⟩
  intro row h
  induction row with
  | nil => exact ⟨[], rfl, rfl⟩
  | cons p rest ih =>
    obtain ⟨jv, hjv⟩ := h p (List.mem_cons_self p rest)
    obtain ⟨out, hout, hmap⟩ := ih (fun q hq => h q (List.mem_cons_of_mem p hq))
    refine ⟨(p.1, jv) :: out, ?_, ?_⟩
    · cases p with
      | mk k v => simp only [serializeRow, hjv, hout]
    · simp [hmap]

/-- Witness for the amended C9 statement at a concrete row holding a
datetime, a Decimal and an object with an attribute dictionary. -/
theorem encoder_amended_witness :
    ∃ out, serializeRow
        [("d", PyVal.nonprim (.datetime "2024-01-01T00:00:00")),
         ("n", PyVal.nonprim (.decimal 5 (-1))),
         ("o", PyVal.nonprim (.objWithDict "row object"))] = .ok out ∧
      out.map Prod.fst = ["d", "n", "o"] := by
  refine encoder_amended.2.2.2.2.2 _ ?_
  intro p hp
  simp only [List.mem_cons, List.mem_singleton] at hp
  rcases hp with h | h | h | h
  · exact ⟨.js "2024-01-01T00:00:00", by rw [h]; rfl⟩
  · exact ⟨.jf 5 (-1), by rw [h]; rfl⟩
  · exact ⟨.js "row object", by rw [h]; rfl⟩
  · exact absurd h (by simp)

/-! ## C5 — the context primer -/

/-- Whether `get_table_schema` succeeds for a table (the per-table priming
step records the table exactly when it does). -/
def schemaOk (p : Bool) (st : ConnState) (drv : Driver) (t : String) : Bool :=
  match (PowerBIConnector.get_table_schema p st drv t).1 with
  | .ok _ => true
  | .error _ => false

/-- Whether the priming step records a sample for a table: its schema
fetch succeeds with kind `data_table` and the 3-row sample query succeeds. -/
def sampleRecorded (p : Bool) (st : ConnState) (drv : Driver) (t : String) : Bool :=
  match (PowerBIConnector.get_table_schema p st drv t).1 with
  | .ok d =>
    d.kind == "data_table" &&
      (match (PowerBIConnector.get_sample_data p st drv t 3).1 with
       | .ok _ => true
       | .error _ => false)
  | .error _ => false

theorem prime_table_fst (p : Bool) (st : ConnState) (drv : Driver)
    (acc : List (String × TableSchema) × List (String × List (List (String × PBValue))))
    (t : String) :
    (prime_table p st drv acc t).1.map Prod.fst =
      acc.1.map Prod.fst ++ (if schemaOk p st drv t then [t] else []) := by
  unfold prime_table schemaOk
  cases hts : (PowerBIConnector.get_table_schema p st drv t).1 with
  | error e => simp
  | ok d =>
    by_cases hk : d.kind == "data_table"
    · cases hs : (PowerBIConnector.get_sample_data p st drv t 3).1 with
      | error e => simp [hk, hs]
      | ok rows => simp [hk, hs]
    · simp [hk]

theorem prime_table_snd (p : Bool) (st : ConnState) (drv : Driver)
    (acc : List (String × TableSchema) × List (String × List (List (String × PBValue))))
    (t : String) :
    (prime_table p st drv acc t).2.map Prod.fst =
      acc.2.map Prod.fst ++ (if sampleRecorded p st drv t then [t] else []) := by
  unfold prime_table sampleRecorded
  cases hts : (PowerBIConnector.get_table_schema p st drv t).1 with
  | error e => simp
  | ok d =>
    by_cases hk : d.kind == "data_table"
    · cases hs : (PowerBIConnector.get_sample_data p st drv t 3).1 with
      | error e => simp [hk, hs]
      | ok rows => simp [hk, hs]
    · simp [hk]

theorem prime_fold_schema_keys (p : Bool) (st : ConnState) (drv : Driver) :
    ∀ (l : List String)
      (acc : List (String × TableSchema) × List (String × List (List (String × PBValue)))),
      ((l.foldl (prime_table p st drv) acc).1).map Prod.fst =
        acc.1.map Prod.fst ++ l.filter (schemaOk p st drv) := by
  intro l
  induction l with
  | nil => intro acc; simp
  | cons t l ih =>
    intro acc
    rw [List.foldl_cons, ih, List.filter_cons, prime_table_fst]
    by_cases hok : schemaOk p st drv t
    · simp [hok]
    · simp [hok]

theorem prime_fold_sample_keys (p : Bool) (st : ConnState) (drv : Driver) :
    ∀ (l : List String)
      (acc : List (String × TableSchema) × List (String × List (List (String × PBValue)))),
      ((l.foldl (prime_table p st drv) acc).2).map Prod.fst =
        acc.2.map Prod.fst ++ l.filter (sampleRecorded p st drv) := by
  intro l
  induction l with
  | nil => intro acc; simp
  | cons t l ih =>
    intro acc
    rw [List.foldl_cons, ih, List.filter_cons, prime_table_snd]
    by_cases hok : sampleRecorded p st drv t
    · simp [hok]
    · simp [hok]

/-- C5: the context primer (a) swallows every failure of its body — when
the body raises (for instance because discovery failed) the task still
completes, installing nothing; (b) after a successful discovery it
processes exactly the first 5 discovered tables: the recorded schemas are
keyed by precisely those of the first 5 tables whose schema fetch
succeeded, and the recorded samples by precisely the data tables among
them whose 3-row sample succeeded — so a per-table failure skips only that
table; (c) a table whose schema fetch fails leaves the accumulator
untouched (the loop continues with the remaining tables); and (d) a table
of kind `data_table` whose 3-row sample succeeds is recorded with both its
schema and that sample. -/
theorem async_prepare_context_spec (p : Bool) (drv : Driver) :
    (∀ st a e, asyncPrepareBody p st drv a = .error e →
       PowerBIMCPServer.async_prepare_context p st drv a = (st, none)) ∧
    (∀ st a ts st2 tr,
       PowerBIConnector.discover_tables p st drv = (.ok ts, st2, tr) → a = true →
       ∃ c : AnalysisContext,
         PowerBIMCPServer.async_prepare_context p st drv a = (st2, some c) ∧
         c.tables = ts ∧
         c.schemas.map Prod.fst = (ts.take 5).filter (schemaOk p st2 drv) ∧
         c.sample_data.map Prod.fst = (ts.take 5).filter (sampleRecorded p st2 drv)) ∧
    (∀ st acc t, schemaOk p st drv t = false → prime_table p st drv acc t = acc) ∧
    (∀ st acc t d rows,
       (PowerBIConnector.get_table_schema p st drv t).1 = .ok d →
       d.kind = "data_table" →
       (PowerBIConnector.get_sample_data p st drv t 3).1 = .ok rows →
       prime_table p st drv acc t = (acc.1 ++ [(t, d)], acc.2 ++ [(t, rows)])) := by
  refine ⟨?_, ?_, ?_, ?_⟩
  · intro st a e h
    unfold PowerBIMCPServer.async_prepare_context
    rw [h]
  · intro st a ts st2 tr hdisc ha
    subst ha
    refine ⟨⟨ts, ((ts.take 5).foldl (prime_table p st2 drv) ([], [])).1,
      ((ts.take 5).foldl (prime_table p st2 drv) ([], [])).2⟩, ?_, rfl, ?_, ?_⟩
    · unfold PowerBIMCPServer.async_prepare_context asyncPrepareBody
      rw [hdisc]
      simp
    · rw [prime_fold_schema_keys]
      simp
    · rw [prime_fold_sample_keys]
      simp
  · intro st acc t h
    unfold schemaOk at h
    unfold prime_table
    cases hts : (PowerBIConnector.get_table_schema p st drv t).1 with
    | error e => rfl
    | ok d => rw [hts] at h; exact Bool.noConfusion h
  · intro st acc t d rows hts hk hs
    unfold prime_table
    rw [hts, hs]
    simp [hk]

/-- A driver on which every cursor query succeeds with one column and one
row. -/
def drvData : Driver :=
  { drvEmpty with query := fun _ => .ok (["C1"], [[PBValue.int 1]]) }

/-- Witness for C5: a failing-discovery instance completes with nothing
installed, and a concrete data table is recorded with its schema and its
3-row sample. -/
theorem async_prepare_context_spec_witness :
    PowerBIMCPServer.async_prepare_context true {} drvEmpty true = ({}, none) ∧
    prime_table true stConn drvData ([], []) "T" =
      ([("T", TableSchema.data_table "T" ["C1"])],
       [("T", [[("C1", PBValue.int 1)]])]) :=
  ⟨(async_prepare_context_spec true drvEmpty).1 {} true notConnectedMsg rfl,
   (async_prepare_context_spec true drvData).2.2.2 stConn ([], []) "T"
     (TableSchema.data_table "T" ["C1"]) [[("C1", PBValue.int 1)]] rfl rfl rfl⟩

/-! ## C6 — gating of the natural-language tools -/

/-- C6 (amended): whenever the language-model key is missing (or empty) in
the environment at the time of the call, the two natural-language tools are
absent from the advertised list and an invocation returns the fixed
not-configured text. -/
theorem openai_gating_amended (env : List (String × String))
    (handlers : String → String) (h : openai_enabled env = false) :
    "query_data" ∉ handle_list_tools env ∧
    "suggest_questions" ∉ handle_list_tools env ∧
    handle_call_tool env handlers "query_data" = notConfiguredMsg ∧
    handle_call_tool env handlers "suggest_questions" = notConfiguredMsg := by
  refine ⟨?_, ?_, ?_, ?_⟩
  · simp [handle_list_tools, h, baseTools]
  · simp [handle_list_tools, h, baseTools]
  · simp [handle_call_tool, h]
  · simp [handle_call_tool, h]

/-- An environment with no language-model key. -/
def envNoKey : List (String × String) := []

/-- An environment carrying a language-model key. -/
def envWithKey : List (String × String) := [("OPENAI_API_KEY", "sk-test")]

/-- C6 counterexample to the once-per-instance part: nothing in the server
instance fixes the capability decision — the same dispatcher, handed the
same tool name, answers differently depending on the environment read at
call time, and the advertised list likewise differs between two listings.
The decision is re-evaluated from the environment on every call. -/
theorem openai_gating_counterexample :
    handle_call_tool envNoKey (fun n => "handled " ++ n) "query_data" =
      notConfiguredMsg ∧
    handle_call_tool envWithKey (fun n => "handled " ++ n) "query_data" =
      "handled query_data" ∧
    "handled query_data" ≠ notConfiguredMsg ∧
    handle_list_tools envNoKey ≠ handle_list_tools envWithKey := by
  refine ⟨rfl, rfl, ?_, ?_⟩ <;> decide

/-- Witness for the amended C6 statement in the keyless environment. -/
theorem openai_gating_amended_witness :
    openai_enabled envNoKey = false ∧
    "query_data" ∉ handle_list_tools envNoKey ∧
    handle_call_tool envNoKey (fun n => "handled " ++ n) "suggest_questions" =
      notConfiguredMsg :=
  ⟨rfl, (openai_gating_amended envNoKey (fun n => "handled " ++ n) rfl).1,
   (openai_gating_amended envNoKey (fun n => "handled " ++ n) rfl).2.2.2⟩
